import Mathlib

/-!
Shallow embedding of the vaniBackend realtime-translation core
(translator/speech modules and the socket message handlers), with
theorems checking the design-spec claims against the code.

Conventions used throughout:
* JavaScript strings are Lean `String`; byte buffers are `List Nat`.
* A JavaScript `Map` is an association list in insertion order
  (`jsMapSet` replaces in place on an existing key, appends otherwise).
* Remote providers (Azure translator / speech SDK) are abstracted as
  explicit function parameters supplying each call's outcome; fallible
  code returns `Except` or `Option`.
-/

namespace VaniBackend

/-- JavaScript truthiness fallback on strings: `a || b`. -/
def jsOr (a b : String) : String := if a = "" then b else a

/-- Lookup in a JavaScript `Map` modelled as an association list. -/
def jsMapGet {α : Type} (m : List (String × α)) (k : String) : Option α :=
  (m.find? (fun p => p.1 = k)).map Prod.snd

/-- JavaScript `Map.has`. -/
def jsMapHas {α : Type} (m : List (String × α)) (k : String) : Bool :=
  m.any (fun p => p.1 = k)

/-- JavaScript `Map.set`: replaces the value in place when the key exists,
appends at the end otherwise (insertion order is preserved). -/
def jsMapSet {α : Type} (m : List (String × α)) (k : String) (v : α) :
    List (String × α) :=
  if jsMapHas m k then m.map (fun p => if p.1 = k then (k, v) else p)
  else m ++ [(k, v)]

/-- ASCII bytes of the marker `RIFF`. -/
def asciiRIFF : List Nat := [82, 73, 70, 70]

/-- ASCII bytes of the marker `WAVE`. -/
def asciiWAVE : List Nat := [87, 65, 86, 69]

/-- Node `'ascii'` decoding of a byte sequence: the high bit of every byte
is unset before the character is produced, so marker comparisons made via
`buffer.slice(...).toString('ascii')` happen modulo 128. -/
def asciiDecode (bytes : List Nat) : List Nat := bytes.map (fun b => b % 128)

/-- Embedding of `isValidWavFormat` from `src/utils/speechToTextModule.js`:
requires length at least 44, and the markers `RIFF` (bytes 0-3) and `WAVE`
(bytes 8-11) compared after Node `'ascii'` decoding, which unsets each
byte's high bit. -/
def isValidWavFormat (buffer : List Nat) : Bool :=
  if buffer.length < 44 then false
  else if asciiDecode (buffer.take 4) ≠ asciiRIFF then false
  else if asciiDecode ((buffer.drop 8).take 4) ≠ asciiWAVE then false
  else true

/-- A 44-byte buffer whose marker bytes all carry the high bit set
(`0xD2 0xC9 0xC6 0xC6` at offset 0 and `0xD7 0xC1 0xD6 0xC5` at offset 8):
not the exact ASCII markers, yet their low seven bits spell `RIFF` and
`WAVE`. -/
def highBitWavBuffer : List Nat :=
  [210, 201, 198, 198] ++ [0, 0, 0, 0] ++ [215, 193, 214, 197] ++
    List.replicate 32 0

/-- C7 counterexample: the validation accepts a 44-byte buffer whose bytes
0-3 are `0xD2 0xC9 0xC6 0xC6` and bytes 8-11 are `0xD7 0xC1 0xD6 0xC5` —
corrupted markers under the exact-ASCII reading — because the `'ascii'`
decode drops each byte's high bit before the comparison; this refutes the
claimed rejection of every buffer with a corrupted marker. -/
theorem c7_counterexample :
    isValidWavFormat highBitWavBuffer = true ∧
    highBitWavBuffer.take 4 ≠ asciiRIFF ∧
    (highBitWavBuffer.drop 8).take 4 ≠ asciiWAVE :=
  ⟨rfl, by decide, by decide⟩

/-- C7 amended: WAV format validation accepts a buffer iff its length is at
least 44 and its marker bytes equal `RIFF` (bytes 0-3) and `WAVE` (bytes
8-11) after the high-bit masking of Node `'ascii'` decoding; every shorter
buffer, and every buffer whose masked markers mismatch, is rejected — but a
marker byte that merely has its high bit set is accepted. -/
theorem c7_wav_validation_masked_iff (b : List Nat) :
    isValidWavFormat b = true ↔
      44 ≤ b.length ∧ asciiDecode (b.take 4) = asciiRIFF ∧
        asciiDecode ((b.drop 8).take 4) = asciiWAVE := by
  unfold isValidWavFormat
  split_ifs with h1 h2 h3 <;> simp_all

/-- Trace of one `speechToText` run: the returned value (`Except.ok none`
models the JavaScript fall-through returning `undefined` when the retry
loop is never entered), how many times the WAV validation executed, and how
many provider (Azure SDK) calls were made. -/
structure SttTrace where
  result : Except String (Option String)
  validationAttempts : Nat
  providerCalls : Nat

/-- Retry loop of `speechToText` in `src/utils/speechToTextModule.js`.
`remaining` is `maxRetries - attempts` at loop entry; each iteration first
validates the WAV framing (throwing `Invalid audio format` on failure) and
otherwise performs the provider recognition, whose outcome per attempt is
supplied by `provider`.  A thrown error is retried (after a backoff sleep,
irrelevant to the trace) while `attempts < maxRetries`, else surfaced. -/
def speechToTextGo (buffer : List Nat) (provider : Nat → Except String String) :
    Nat → Nat → Nat → Nat → SttTrace
  | 0, _, v, c => ⟨Except.ok none, v, c⟩
  | remaining + 1, attemptIdx, v, c =>
    if isValidWavFormat buffer then
      match provider attemptIdx with
      | Except.ok t => ⟨Except.ok (some t), v + 1, c + 1⟩
      | Except.error e =>
        if remaining = 0 then ⟨Except.error e, v + 1, c + 1⟩
        else speechToTextGo buffer provider remaining (attemptIdx + 1) (v + 1) (c + 1)
    else
      if remaining = 0 then ⟨Except.error "Invalid audio format", v + 1, c⟩
      else speechToTextGo buffer provider remaining (attemptIdx + 1) (v + 1) c

/-- Embedding of `speechToText` (`src/utils/speechToTextModule.js`): the
retry loop entered with `attempts = 0`. -/
def speechToText (buffer : List Nat) (provider : Nat → Except String String)
    (maxRetries : Nat) : SttTrace :=
  speechToTextGo buffer provider maxRetries 0 0 0

/-- On an invalid buffer every loop iteration re-validates, never reaches the
provider, and the error surfaces only once the retry budget is exhausted. -/
theorem speechToTextGo_invalid (buffer : List Nat)
    (provider : Nat → Except String String) (h : isValidWavFormat buffer = false) :
    ∀ remaining attemptIdx v c,
      speechToTextGo buffer provider remaining attemptIdx v c =
        ⟨if remaining = 0 then Except.ok none else Except.error "Invalid audio format",
          v + remaining, c⟩ := by
  intro remaining
  induction remaining with
  | zero => intro attemptIdx v c; simp [speechToTextGo]
  | succ n ih =>
    intro attemptIdx v c
    by_cases hn : n = 0
    · subst hn; simp [speechToTextGo, h]
    · simp only [speechToTextGo, h, Bool.false_eq_true, if_false, hn, if_neg hn]
      rw [ih]
      simp [hn]
      omega

/-- C6 counterexample: for the empty buffer (which fails WAV validation) and
the default budget `maxRetries = 3`, validation is executed three times, not
once — refuting the claim that the `InvalidFormat` failure is surfaced
immediately with no second validation attempt.  (No provider call occurs,
and the error surfaces only after the third attempt.) -/
theorem c6_counterexample :
    (speechToText [] (fun _ => Except.ok "hi") 3).validationAttempts = 3 ∧
    (speechToText [] (fun _ => Except.ok "hi") 3).providerCalls = 0 ∧
    (speechToText [] (fun _ => Except.ok "hi") 3).result =
      Except.error "Invalid audio format" :=
  ⟨rfl, rfl, rfl⟩

/-- C6 amended: a buffer failing container-framing validation never triggers
a provider call, but the validation failure is re-attempted on every
iteration of the retry budget (`maxRetries` validation attempts in total,
with backoff sleeps in between), and the `InvalidFormat` error is surfaced
only after the budget is exhausted. -/
theorem c6_invalid_format_retried (buffer : List Nat)
    (provider : Nat → Except String String) (maxRetries : Nat)
    (h : isValidWavFormat buffer = false) :
    (speechToText buffer provider maxRetries).providerCalls = 0 ∧
    (speechToText buffer provider maxRetries).validationAttempts = maxRetries ∧
    (0 < maxRetries →
      (speechToText buffer provider maxRetries).result =
        Except.error "Invalid audio format") := by
  unfold speechToText
  rw [speechToTextGo_invalid buffer provider h]
  refine ⟨rfl, by simp, ?_⟩
  intro hpos
  simp [Nat.pos_iff_ne_zero.mp hpos]

/-- C6 amended, witness at the empty buffer with budget 3. -/
theorem c6_invalid_format_retried_witness :
    (speechToText [] (fun _ => Except.ok "x") 3).providerCalls = 0 ∧
    (speechToText [] (fun _ => Except.ok "x") 3).validationAttempts = 3 ∧
    (0 < 3 →
      (speechToText [] (fun _ => Except.ok "x") 3).result =
        Except.error "Invalid audio format") :=
  c6_invalid_format_retried [] (fun _ => Except.ok "x") 3 (by decide)

/-- Outcome of one provider HTTP attempt inside `translateText` or
`translateBatch` (`src/utils/translator.js`): a successful response body, a
429 rate-limit response carrying its `retry-after` hint in seconds, or any
other error with its message. -/
inductive TResp (α : Type) where
  | ok (v : α)
  | rateLimited (retryAfterSecs : Nat)
  | fail (msg : String)
deriving DecidableEq

/-- Result of running the translator against a finite budget of provider
responses: either the code returned or threw (`result`, with the number of
attempts consumed), or the budget ran out with the code still retrying
(`exhausted`) — the device by which the unbounded 429 recursion is made a
total Lean function. -/
inductive RunOutcome (α : Type) where
  | result (r : Except String α) (attempts : Nat)
  | exhausted (attempts : Nat)

/-- JavaScript blank-text test `!text || text.trim().length === 0`: true iff
every character is whitespace (in particular for the empty string). -/
def jsBlank (s : String) : Bool := s.data.all (fun c => c.isWhitespace)

/-- The catch-block structure shared by `translateText` and `translateBatch`:
a 429 response sleeps for the `retry-after` hint and recursively re-issues
the identical request (consuming the next provider response); any other
error is wrapped with `prefixMsg` and thrown; a success returns. -/
def rateLimitedLoop {α : Type} (prefixMsg : String) :
    List (TResp α) → Nat → RunOutcome α
  | [], n => RunOutcome.exhausted n
  | TResp.ok v :: _, n => RunOutcome.result (Except.ok v) (n + 1)
  | TResp.rateLimited _ :: rest, n => rateLimitedLoop prefixMsg rest (n + 1)
  | TResp.fail m :: _, n => RunOutcome.result (Except.error (prefixMsg ++ m)) (n + 1)

/-- Embedding of `translateText` (`src/utils/translator.js`): missing
credentials throw; equal languages or blank text short-circuit to the input;
a cache hit returns the cached value; otherwise the provider request is
issued with the recursive 429 handling of `rateLimitedLoop`. -/
def translateText (creds : Bool) (text srcLang tgtLang : String)
    (cacheHit : Option String) (responses : List (TResp String)) :
    RunOutcome String :=
  if creds = false then
    RunOutcome.result (Except.error "Azure Translator credentials not configured") 0
  else if srcLang = tgtLang then RunOutcome.result (Except.ok text) 0
  else if jsBlank text = true then RunOutcome.result (Except.ok text) 0
  else
    match cacheHit with
    | some v => RunOutcome.result (Except.ok v) 0
    | none => rateLimitedLoop "Translation failed: " responses 0

/-- A run over `n` straight 429 responses consumes all of them and is still
retrying. -/
theorem rateLimitedLoop_replicate {α : Type} (p : String) (n k : Nat) :
    rateLimitedLoop (α := α) p (List.replicate n (TResp.rateLimited 1)) k =
      RunOutcome.exhausted (k + n) := by
  induction n generalizing k with
  | zero => simp [rateLimitedLoop]
  | succ m ih =>
    rw [List.replicate_succ]
    show rateLimitedLoop p (List.replicate m (TResp.rateLimited 1)) (k + 1) = _
    rw [ih]
    congr 1
    omega

/-- A run over `n` straight 429 responses followed by a success returns that
success on attempt `n + 1`. -/
theorem rateLimitedLoop_replicate_ok {α : Type} (p : String) (n k : Nat) (v : α) :
    rateLimitedLoop p (List.replicate n (TResp.rateLimited 1) ++ [TResp.ok v]) k =
      RunOutcome.result (Except.ok v) (k + n + 1) := by
  induction n generalizing k with
  | zero => simp [rateLimitedLoop]
  | succ m ih =>
    rw [List.replicate_succ]
    show rateLimitedLoop p (List.replicate m (TResp.rateLimited 1) ++ [TResp.ok v]) (k + 1) = _
    rw [ih]
    congr 1
    omega

/-- C5 counterexample: with two 429 responses before a success,
`translateText` makes three attempts (two extra retries, not one); and with
five straight 429 responses it has still not returned after five attempts —
refuting both the depth-one bound and the claimed unconditional
termination. -/
theorem c5_counterexample :
    translateText true "hello" "en" "fr" none
      [TResp.rateLimited 1, TResp.rateLimited 1, TResp.ok "bonjour"] =
        RunOutcome.result (Except.ok "bonjour") 3 ∧
    translateText true "hello" "en" "fr" none
      (List.replicate 5 (TResp.rateLimited 1)) = RunOutcome.exhausted 5 :=
  ⟨rfl, rfl⟩

/-- C5 amended: on every 429 the client sleeps for the provider-supplied
retry-after hint and recursively re-issues the identical request with no
depth bound: for every `n`, a provider answering 429 on the first `n`
attempts leaves the call still retrying after `n` attempts, and the call
returns only when a non-429 response arrives (here on attempt `n + 1`). -/
theorem c5_rate_limit_unbounded (text srcLang tgtLang v : String) (n : Nat)
    (h1 : srcLang ≠ tgtLang) (h2 : jsBlank text = false) :
    translateText true text srcLang tgtLang none
      (List.replicate n (TResp.rateLimited 1)) = RunOutcome.exhausted n ∧
    translateText true text srcLang tgtLang none
      (List.replicate n (TResp.rateLimited 1) ++ [TResp.ok v]) =
        RunOutcome.result (Except.ok v) (n + 1) := by
  unfold translateText
  constructor
  · rw [if_neg (by simp), if_neg h1, if_neg (by simp [h2])]
    simpa using rateLimitedLoop_replicate "Translation failed: " n 0
  · rw [if_neg (by simp), if_neg h1, if_neg (by simp [h2])]
    simpa using rateLimitedLoop_replicate_ok "Translation failed: " n 0 v

/-- C5 amended, witness: two straight 429 responses and then a success,
showing the second retry and the attempt count 3. -/
theorem c5_rate_limit_unbounded_witness :
    translateText true "hello" "en" "fr" none
      (List.replicate 2 (TResp.rateLimited 1)) = RunOutcome.exhausted 2 ∧
    translateText true "hello" "en" "fr" none
      (List.replicate 2 (TResp.rateLimited 1) ++ [TResp.ok "bonjour"]) =
        RunOutcome.result (Except.ok "bonjour") 3 :=
  c5_rate_limit_unbounded "hello" "en" "fr" "bonjour" 2
    (by decide) (by decide)

/-- Lookup with JavaScript fallback `m.get(k) || fallbackV`. -/
def jsGetOr (m : List (String × String)) (k fallbackV : String) : String :=
  match jsMapGet m k with
  | some v => jsOr v fallbackV
  | none => fallbackV

/-- Embedding of `translateMessageText` (`src/utils/messageTranslator.js`):
missing text yields the empty string; an `en` target or blank text returns
the input unchanged; missing credentials return the input; otherwise the
provider call result is returned, with every failure path (non-200 status,
thrown error) falling back to the original text (`provider` returning
`none` models all of those). -/
def translateMessageText (creds : Bool) (provider : String → String → Option String)
    (text targetLang : String) : String :=
  if text = "" then ""
  else if targetLang = "en" then text
  else if jsBlank text = true then text
  else if creds = false then text
  else
    match provider text targetLang with
    | some t => t
    | none => text

/-- First-occurrence deduplication with a seen-accumulator: the embedding of
the JavaScript `[...new Set(xs)]` idiom (insertion order preserved). -/
def dedupFirstAux (seen : List String) : List String → List String
  | [] => []
  | x :: xs =>
    if x ∈ seen then dedupFirstAux seen xs else x :: dedupFirstAux (x :: seen) xs

/-- JavaScript `[...new Set(xs)]`. -/
def dedupFirst (l : List String) : List String := dedupFirstAux [] l

/-- Every element produced by `dedupFirstAux` avoids the seen set. -/
theorem dedupFirstAux_not_seen :
    ∀ (l seen : List String) (a : String), a ∈ dedupFirstAux seen l → a ∉ seen := by
  intro l
  induction l with
  | nil => intro seen a h; simp [dedupFirstAux] at h
  | cons x xs ih =>
    intro seen a h
    rw [dedupFirstAux] at h
    by_cases hx : x ∈ seen
    · rw [if_pos hx] at h; exact ih seen a h
    · rw [if_neg hx] at h
      rcases List.mem_cons.mp h with rfl | h
      · exact hx
      · intro hseen
        exact ih (x :: seen) a h (List.mem_cons_of_mem _ hseen)

/-- `dedupFirstAux` produces a list without duplicates. -/
theorem dedupFirstAux_nodup : ∀ (l seen : List String), (dedupFirstAux seen l).Nodup := by
  intro l
  induction l with
  | nil => intro seen; simp [dedupFirstAux]
  | cons x xs ih =>
    intro seen
    rw [dedupFirstAux]
    by_cases hx : x ∈ seen
    · rw [if_pos hx]; exact ih seen
    · rw [if_neg hx]
      refine List.Nodup.cons ?_ (ih (x :: seen))
      intro hmem
      exact dedupFirstAux_not_seen xs (x :: seen) x hmem (List.mem_cons_self x seen)

/-- `dedupFirst` produces a list without duplicates. -/
theorem dedupFirst_nodup (l : List String) : (dedupFirst l).Nodup :=
  dedupFirstAux_nodup l []

/-- Setting a key makes it retrievable with that value. -/
theorem jsMapGet_set_self {α : Type} (m : List (String × α)) (k : String) (v : α) :
    jsMapGet (jsMapSet m k v) k = some v := by
  unfold jsMapSet
  by_cases h : jsMapHas m k = true
  · rw [if_pos h]
    induction m with
    | nil => simp [jsMapHas] at h
    | cons p ps ih =>
      by_cases hp : p.1 = k
      · unfold jsMapGet
        rw [List.map_cons, if_pos hp, List.find?_cons_of_pos _ (by simp)]
        rfl
      · have hps : jsMapHas ps k = true := by
          simpa [jsMapHas, hp] using h
        unfold jsMapGet
        rw [List.map_cons, if_neg hp, List.find?_cons_of_neg _ (by simp [hp])]
        exact ih hps
  · rw [if_neg h]
    have hnone : (m.find? fun p => decide (p.1 = k)) = none := by
      rw [List.find?_eq_none]
      intro p hp
      simp only [decide_eq_true_eq]
      intro hk
      apply h
      unfold jsMapHas
      rw [List.any_eq_true]
      exact ⟨p, hp, by simp [hk]⟩
    unfold jsMapGet
    rw [List.find?_append, hnone, List.find?_cons_of_pos _ (by simp)]
    rfl

/-- Replacing all entries keyed `k` does not affect lookups at another key. -/
theorem jsMapGet_map_replace {α : Type} (k k0 : String) (v : α) (h : k0 ≠ k) :
    ∀ ps : List (String × α),
      jsMapGet (ps.map (fun p => if p.1 = k then (k, v) else p)) k0 = jsMapGet ps k0 := by
  intro ps
  induction ps with
  | nil => rfl
  | cons p ps ih =>
    simp only [List.map_cons]
    by_cases hp : p.1 = k
    · rw [if_pos hp]
      unfold jsMapGet
      rw [List.find?_cons_of_neg _ (by simp; exact fun hh => h hh.symm),
        List.find?_cons_of_neg _ (by simp [hp]; exact fun hh => h hh.symm)]
      exact ih
    · rw [if_neg hp]
      by_cases hp0 : p.1 = k0
      · unfold jsMapGet
        rw [List.find?_cons_of_pos _ (by simp [hp0]),
          List.find?_cons_of_pos _ (by simp [hp0])]
      · unfold jsMapGet
        rw [List.find?_cons_of_neg _ (by simp [hp0]),
          List.find?_cons_of_neg _ (by simp [hp0])]
        exact ih

/-- Setting a different key leaves a lookup unchanged. -/
theorem jsMapGet_set_ne {α : Type} (m : List (String × α)) (k k0 : String) (v : α)
    (h : k0 ≠ k) : jsMapGet (jsMapSet m k v) k0 = jsMapGet m k0 := by
  unfold jsMapSet
  by_cases hhas : jsMapHas m k = true
  · rw [if_pos hhas]
    exact jsMapGet_map_replace k k0 v h m
  · rw [if_neg hhas]
    unfold jsMapGet
    rw [List.find?_append,
      List.find?_cons_of_neg _ (by simp; exact fun hh => h hh.symm)]
    cases hm : m.find? fun p => decide (p.1 = k0) <;> simp [hm]

/-- Delivery data computed by one room-message fan-out. -/
structure RoomFanout where
  callTargets : List String
  translations : List (String × String)
  memberContents : List (String × String)
  senderContent : String

/-- Embedding of `handleRoomMessage` (`src/socket/messageHandler.js`).
`memberLangs` holds the `preferredLanguage` of every recipient (empty string
for a missing value, defaulted to `en` as in `u.preferredLanguage || 'en'`);
`translations0` is the seeded translations map; `tr lang` is the result of
`translateMessageText(message, lang)` for each target (an empty string
models a falsy result, skipped by the `if (translated)` guard).  The unique
language set is computed, each unique language distinct from
`originalLanguage` and not already present in the map is translated once,
and every member is served `translations.get(lang) || message`; the sender
is echoed the original message. -/
def handleRoomMessage (message origLang : String)
    (translations0 : List (String × String)) (memberLangs : List String)
    (tr : String → String) : RoomFanout :=
  let uniqueLangs := dedupFirst (memberLangs.map (fun l => jsOr l "en"))
  let callTargets := uniqueLangs.filter
    (fun t => decide (t ≠ "" ∧ t ≠ origLang ∧ jsMapHas translations0 t = false))
  let translations := callTargets.foldl
    (fun m t => if tr t ≠ "" then jsMapSet m t (tr t) else m) translations0
  let memberContents := memberLangs.map
    (fun l => (jsOr l "en", jsGetOr translations (jsOr l "en") message))
  ⟨callTargets, translations, memberContents, message⟩

/-- C1: with sender language `en`, seeded map containing only `en`, and
recipients preferring `en, en, fr, fr, de`, exactly the two targets `fr` and
`de` are translated — one call per unique target language distinct from the
sender language and not already cached, never one per member (the target
list never repeats a language, never contains the original language, and
never contains an already-cached language). -/
theorem c1_room_fanout_dedup :
    (∀ tr : String → String,
      (handleRoomMessage "Hello, how are you?" "en"
          [("en", "Hello, how are you?")] ["en", "en", "fr", "fr", "de"]
          tr).callTargets = ["fr", "de"]) ∧
    (∀ (message origLang : String) (t0 : List (String × String))
        (memberLangs : List String) (tr : String → String),
      (handleRoomMessage message origLang t0 memberLangs tr).callTargets.Nodup ∧
      ∀ t ∈ (handleRoomMessage message origLang t0 memberLangs tr).callTargets,
        t ≠ origLang ∧ jsMapHas t0 t = false) := by
  constructor
  · intro tr; rfl
  · intro message origLang t0 memberLangs tr
    constructor
    · exact List.Nodup.filter _ (dedupFirst_nodup _)
    · intro t ht
      have := List.of_mem_filter ht
      simp only [decide_eq_true_eq] at this
      exact ⟨this.2.1, this.2.2⟩

/-- C1 witness: the second conjunct instantiated at a concrete fan-out, with
the membership hypothesis discharged for the target `fr`. -/
theorem c1_room_fanout_dedup_witness :
    (handleRoomMessage "Hello" "en" [("en", "Hello")] ["en", "fr"]
        (fun _ => "x")).callTargets.Nodup ∧
    ("fr" ≠ "en" ∧ jsMapHas [("en", "Hello")] "fr" = false) :=
  ⟨(c1_room_fanout_dedup.2 "Hello" "en" [("en", "Hello")] ["en", "fr"]
      (fun _ => "x")).1,
    (c1_room_fanout_dedup.2 "Hello" "en" [("en", "Hello")] ["en", "fr"]
      (fun _ => "x")).2 "fr" (by decide)⟩

/-- Delivery data computed by one direct-message send. -/
structure DirectOutcome where
  translationCalls : Nat
  translations : List (String × String)
  receiverContent : String
  senderContent : String

/-- Embedding of `handleDirectMessage` (`src/socket/messageHandler.js`): the
receiver language is defaulted to `en`; when it differs from
`originalLanguage` one translation call is made and its non-empty result is
stored; the receiver is served `translations.get(receiverLang) || message`
and the sender is always echoed the original message. -/
def handleDirectMessage (message origLang receiverLangRaw : String)
    (translations0 : List (String × String)) (tr : String → String) :
    DirectOutcome :=
  let receiverLang := jsOr receiverLangRaw "en"
  if receiverLang ≠ origLang then
    let translated := tr receiverLang
    let translations :=
      if translated ≠ "" then jsMapSet translations0 receiverLang translated
      else translations0
    ⟨1, translations, jsGetOr translations receiverLang message, message⟩
  else ⟨0, translations0, jsGetOr translations0 receiverLang message, message⟩

/-- C3: when the receiver language differs from the sender language, exactly
one translation call is made and the receiver is delivered its (non-empty)
result; and on every direct message, whatever the languages, the sender is
echoed the original text, never a translation. -/
theorem c3_direct_translation (message origLang receiverLangRaw : String)
    (creds : Bool) (provider : String → String → Option String)
    (hdiff : jsOr receiverLangRaw "en" ≠ origLang)
    (htr : translateMessageText creds provider message (jsOr receiverLangRaw "en") ≠ "") :
    (handleDirectMessage message origLang receiverLangRaw [(origLang, message)]
        (translateMessageText creds provider message)).translationCalls = 1 ∧
    (handleDirectMessage message origLang receiverLangRaw [(origLang, message)]
        (translateMessageText creds provider message)).receiverContent =
      translateMessageText creds provider message (jsOr receiverLangRaw "en") ∧
    (∀ (m o r : String) (t0 : List (String × String)) (f : String → String),
      (handleDirectMessage m o r t0 f).senderContent = m) := by
  refine ⟨?_, ?_, ?_⟩
  · simp only [handleDirectMessage]
    rw [if_pos hdiff]
  · simp only [handleDirectMessage]
    rw [if_pos hdiff, if_pos htr]
    unfold jsGetOr
    rw [jsMapGet_set_self]
    exact if_neg htr
  · intro m o r t0 f
    unfold handleDirectMessage
    by_cases h : jsOr r "en" ≠ o
    · rw [if_pos h]
    · rw [if_neg h]

/-- C3 witness at a concrete direct message (`en` sender, `fr` receiver,
provider translating to `salut`). -/
theorem c3_direct_translation_witness :
    (handleDirectMessage "hi" "en" "fr" [("en", "hi")]
        (translateMessageText true (fun _ _ => some "salut") "hi")).translationCalls = 1 ∧
    (handleDirectMessage "hi" "en" "fr" [("en", "hi")]
        (translateMessageText true (fun _ _ => some "salut") "hi")).receiverContent =
      translateMessageText true (fun _ _ => some "salut") "hi" (jsOr "fr" "en") ∧
    (∀ (m o r : String) (t0 : List (String × String)) (f : String → String),
      (handleDirectMessage m o r t0 f).senderContent = m) :=
  c3_direct_translation "hi" "en" "fr" true (fun _ _ => some "salut")
    (by decide) (by decide)

/-- A fold of translation inserts whose keys all differ from `k0` leaves the
lookup at `k0` unchanged (the insert shape is the one used by
`handleRoomMessage`). -/
theorem jsMapGet_foldl_preserve (tr : String → String) (k0 : String) :
    ∀ (ks : List String) (m : List (String × String)), (∀ t ∈ ks, t ≠ k0) →
      jsMapGet (ks.foldl (fun m t => if tr t ≠ "" then jsMapSet m t (tr t) else m) m) k0 =
        jsMapGet m k0 := by
  intro ks
  induction ks with
  | nil => intro m _; rfl
  | cons t ts ih =>
    intro m h
    rw [List.foldl_cons, ih _ (fun x hx => h x (List.mem_cons_of_mem _ hx))]
    by_cases ht : tr t ≠ ""
    · rw [if_pos ht, jsMapGet_set_ne _ _ _ _ (Ne.symm (h t (List.mem_cons_self t ts)))]
    · rw [if_neg ht]

/-- The fields of a `Chat` document relevant to the translations invariant
(`src/models/Chat.js`). -/
structure ChatRecord where
  originalContent : String
  content : String
  originalLanguage : String
  translations : List (String × String)

/-- The `Chat` document constructed by the socket `sendMessage` path
(`handleMessaging` in `src/socket/messageHandler.js`): the translations map
is seeded with the original message under the sender language. -/
def socketNewMessage (senderLangRaw message : String) : ChatRecord :=
  let origLang := jsOr senderLangRaw "en"
  ⟨message, message, origLang, jsMapSet [] origLang message⟩

/-- The `Chat` document constructed by the HTTP `saveMessage` controller for
a direct message (`src/controllers/chat.js`): the translations map starts
empty and receives at most the receiver-language entry (when the receiver
language is truthy, differs from the sender language, and the translation
call succeeds — `trResult` models the `translateText` outcome). -/
def saveMessageDirectRecord (senderLangRaw content receiverLang : String)
    (trResult : Option String) : ChatRecord :=
  let origLang := jsOr senderLangRaw "en"
  let translations : List (String × String) :=
    if receiverLang ≠ "" ∧ receiverLang ≠ origLang then
      match trResult with
      | some v => jsMapSet [] receiverLang v
      | none => []
    else []
  ⟨content, content, origLang, translations⟩

/-- C2 counterexample: the HTTP `saveMessage` path builds a record whose
translations map does not contain the `originalLanguage` key at all (an
`en` sender sending `hi` to an `fr` receiver), refuting the claim that every
constructed-and-persisted record satisfies
`translations[originalLanguage] == originalText`. -/
theorem c2_counterexample :
    (saveMessageDirectRecord "en" "hi" "fr" (some "salut")).originalContent = "hi" ∧
    jsMapGet (saveMessageDirectRecord "en" "hi" "fr" (some "salut")).translations
      (saveMessageDirectRecord "en" "hi" "fr" (some "salut")).originalLanguage = none :=
  ⟨rfl, rfl⟩

/-- C2 amended: on the socket path the invariant
`translations[originalLanguage] == originalText` holds at construction and
is preserved by the room and direct handlers (which only insert keys
different from the original language); the HTTP `saveMessage` path does not
establish it. -/
theorem c2_socket_translations_invariant (senderLangRaw message origLang : String)
    (t0 : List (String × String)) (memberLangs : List String)
    (receiverLangRaw : String) (tr : String → String)
    (h0 : jsMapGet t0 origLang = some message) :
    jsMapGet (socketNewMessage senderLangRaw message).translations
      (socketNewMessage senderLangRaw message).originalLanguage = some message ∧
    jsMapGet (handleRoomMessage message origLang t0 memberLangs tr).translations
      origLang = some message ∧
    jsMapGet (handleDirectMessage message origLang receiverLangRaw t0 tr).translations
      origLang = some message := by
  refine ⟨?_, ?_, ?_⟩
  · simp only [socketNewMessage]
    exact jsMapGet_set_self [] (jsOr senderLangRaw "en") message
  · simp only [handleRoomMessage]
    have hall : ∀ t ∈ (dedupFirst (memberLangs.map (fun l => jsOr l "en"))).filter
        (fun t => decide (t ≠ "" ∧ t ≠ origLang ∧ jsMapHas t0 t = false)), t ≠ origLang := by
      intro t ht
      have := List.of_mem_filter ht
      simp only [decide_eq_true_eq] at this
      exact this.2.1
    exact (jsMapGet_foldl_preserve tr origLang _ t0 hall).trans h0
  · simp only [handleDirectMessage]
    by_cases hd : jsOr receiverLangRaw "en" ≠ origLang
    · rw [if_pos hd]
      by_cases ht : tr (jsOr receiverLangRaw "en") ≠ ""
      · rw [if_pos ht]
        exact (jsMapGet_set_ne _ _ _ _ (Ne.symm hd)).trans h0
      · rw [if_neg ht]; exact h0
    · rw [if_neg hd]; exact h0

/-- C2 amended, witness at a concrete socket-path message (`en` sender,
`fr` recipients). -/
theorem c2_socket_translations_invariant_witness :
    jsMapGet (socketNewMessage "en" "hi").translations
      (socketNewMessage "en" "hi").originalLanguage = some "hi" ∧
    jsMapGet (handleRoomMessage "hi" "en" [("en", "hi")] ["fr"]
        (fun _ => "salut")).translations "en" = some "hi" ∧
    jsMapGet (handleDirectMessage "hi" "en" "fr" [("en", "hi")]
        (fun _ => "salut")).translations "en" = some "hi" :=
  c2_socket_translations_invariant "en" "hi" "en" [("en", "hi")] ["fr"] "fr"
    (fun _ => "salut") (by decide)

/-- State transition performed by the `disconnect` handler
(`src/socket/disconnectHandler.js`): for every disconnect event the socket
is removed from all rooms it is in (deleting a room that becomes empty) and
its entry is deleted from the active-users registry; the `reason` argument
is only logged, never consulted. -/
def handleDisconnectStep (reason socketId : String)
    (users : List (String × String)) (rooms : List (String × List String)) :
    List (String × String) × List (String × List String) :=
  let rooms2 := rooms.filterMap (fun p =>
    if socketId ∈ p.2 then
      (if p.2.filter (fun i => decide (i ≠ socketId)) = [] then none
       else some (p.1, p.2.filter (fun i => decide (i ≠ socketId))))
    else some p)
  (users.filter (fun p => decide (p.1 ≠ socketId)), rooms2)

/-- User-directory fields touched by the `disconnect` callback registered in
`handleUserConnection` (`src/socket/userHandler.js`): status is set offline
and the socket id cleared (and an offline broadcast is emitted) on every
disconnect, with no inspection of the disconnect reason. -/
structure UserDoc where
  status : String
  socketId : Option String

/-- The `disconnect` callback of `handleUserConnection`. -/
def userHandlerOnDisconnect (reason : String) (u : UserDoc) : UserDoc :=
  { u with status := "offline", socketId := none }

/-- C9 counterexample: a disconnect with the transient reason
`transport error` still deletes the presence entry (and empties the
registry), refuting the claim that only a permanent disconnect
classification triggers deregistration. -/
theorem c9_counterexample :
    handleDisconnectStep "transport error" "s1" [("s1", "u1")] [] = ([], []) ∧
    (userHandlerOnDisconnect "transport error" ⟨"online", some "s1"⟩).status =
      "offline" :=
  ⟨rfl, rfl⟩

/-- C9 amended: every disconnect event deregisters the socket — the entry
keyed by the disconnecting socket is removed and all other entries survive —
and the user document is marked offline, with the outcome completely
independent of the disconnect reason (no permanent/transient
classification exists in the code). -/
theorem c9_disconnect_reason_ignored (reason reason2 socketId : String)
    (users : List (String × String)) (rooms : List (String × List String))
    (u : UserDoc) :
    (∀ uid, (socketId, uid) ∉ (handleDisconnectStep reason socketId users rooms).1) ∧
    (∀ p ∈ users, p.1 ≠ socketId →
      p ∈ (handleDisconnectStep reason socketId users rooms).1) ∧
    handleDisconnectStep reason socketId users rooms =
      handleDisconnectStep reason2 socketId users rooms ∧
    (userHandlerOnDisconnect reason u).status = "offline" := by
  refine ⟨?_, ?_, rfl, rfl⟩
  · intro uid hmem
    have := List.of_mem_filter hmem
    simp at this
  · intro p hp hne
    exact List.mem_filter.mpr ⟨hp, by simp [hne]⟩

/-- C9 amended, witness at a concrete two-user registry and the transient
reason `transport error`. -/
theorem c9_disconnect_reason_ignored_witness :
    (("s1", "u1") ∉
      (handleDisconnectStep "transport error" "s1"
        [("s1", "u1"), ("s2", "u2")] []).1) ∧
    (("s2", "u2") ∈
      (handleDisconnectStep "transport error" "s1"
        [("s1", "u1"), ("s2", "u2")] []).1) ∧
    handleDisconnectStep "transport error" "s1" [("s1", "u1"), ("s2", "u2")] [] =
      handleDisconnectStep "transport close" "s1" [("s1", "u1"), ("s2", "u2")] [] ∧
    (userHandlerOnDisconnect "transport error" ⟨"online", some "s1"⟩).status =
      "offline" :=
  ⟨(c9_disconnect_reason_ignored "transport error" "transport close" "s1"
      [("s1", "u1"), ("s2", "u2")] [] ⟨"online", some "s1"⟩).1 "u1",
    (c9_disconnect_reason_ignored "transport error" "transport close" "s1"
      [("s1", "u1"), ("s2", "u2")] [] ⟨"online", some "s1"⟩).2.1
      ("s2", "u2") (by decide) (by decide),
    (c9_disconnect_reason_ignored "transport error" "transport close" "s1"
      [("s1", "u1"), ("s2", "u2")] [] ⟨"online", some "s1"⟩).2.2.1,
    (c9_disconnect_reason_ignored "transport error" "transport close" "s1"
      [("s1", "u1"), ("s2", "u2")] [] ⟨"online", some "s1"⟩).2.2.2⟩

/-- Embedding of `normalizeLanguage` (`src/utils/speechTranslator.js`):
lower-case the code and keep the segment before the first dash
(`language.toLowerCase().split('-')[0]`); a missing value gives the empty
string (the memoization cache is behaviour-preserving and omitted). -/
def normalizeLanguage (language : String) : String :=
  String.mk ((language.data.map Char.toLower).takeWhile (fun c => c ≠ '-'))

/-- Result shape of the speech-translation pipeline
(`{text: {original, translated}, audio, error}` in
`src/utils/speechTranslator.js`). -/
structure SpeechResult where
  originalText : String
  translatedText : String
  audio : Option (List Nat)
  errorMsg : Option String
deriving DecidableEq

/-- Embedding of `translateSpeech` (`src/utils/speechTranslator.js`).
`audioData` is the normalized buffer (`none` models missing or
unnormalizable input), `stt` the outcome of `performSpeechToText`, `trF` the
outcome of `performTranslation` per text, and `tts` the outcome of
`performTextToSpeech` per text (each helper catches its own exceptions, so
an `Except` value models them exactly; the catch-all in `translateSpeech`
itself is thereby structurally unreachable).  Stages run in order
transcribe, translate (skipped when the normalized languages agree), then
synthesize; each failure returns a structured result carrying the text
computed so far. -/
def translateSpeech (audioData : Option (List Nat)) (srcLang tgtLang : String)
    (stt : Except String String) (trF : String → Except String String)
    (tts : String → Except String (List Nat)) : SpeechResult :=
  match audioData with
  | none => ⟨"", "", none, some "Invalid or missing audio data"⟩
  | some buf =>
    if buf.length < 100 then ⟨"", "", none, some "Audio data too small or corrupted"⟩
    else
      match stt with
      | Except.error e => ⟨"", "", none, some e⟩
      | Except.ok originalText =>
        if originalText = "" then
          ⟨"", "", none, some "No speech detected or empty transcription"⟩
        else if jsOr (normalizeLanguage srcLang) "en" ≠ jsOr (normalizeLanguage tgtLang) "en" then
          match trF originalText with
          | Except.error te => ⟨originalText, "", none, some te⟩
          | Except.ok translatedText =>
            match tts translatedText with
            | Except.error e2 => ⟨originalText, translatedText, none, some e2⟩
            | Except.ok audio => ⟨originalText, translatedText, some audio, none⟩
        else
          match tts originalText with
          | Except.error e2 => ⟨originalText, originalText, none, some e2⟩
          | Except.ok audio => ⟨originalText, originalText, some audio, none⟩

/-- C4: when transcription succeeds with non-empty text and the translation
stage fails, the pipeline returns a structured result with the transcribed
`originalText`, an empty translated text, the translation error, and no
audio; and on every invocation the result is structured — audio is present
exactly when no error is recorded, so a stage failure never yields audio and
never escapes as an exception. -/
theorem c4_translation_stage_failure (buf : List Nat)
    (srcLang tgtLang originalText te : String)
    (trF : String → Except String String) (tts : String → Except String (List Nat))
    (hlen : ¬ buf.length < 100) (ho : originalText ≠ "")
    (hlang : jsOr (normalizeLanguage srcLang) "en" ≠ jsOr (normalizeLanguage tgtLang) "en")
    (htr : trF originalText = Except.error te) :
    translateSpeech (some buf) srcLang tgtLang (Except.ok originalText) trF tts =
      ⟨originalText, "", none, some te⟩ ∧
    ∀ (ad : Option (List Nat)) (s t : String) (st : Except String String)
      (f : String → Except String String) (g : String → Except String (List Nat)),
      (translateSpeech ad s t st f g).audio.isSome ↔
        (translateSpeech ad s t st f g).errorMsg = none := by
  constructor
  · simp only [translateSpeech]
    rw [if_neg hlen, if_neg ho, if_pos hlang, htr]
  · intro ad s t st f g
    unfold translateSpeech
    repeat' split
    all_goals simp

/-- C4 witness: a 100-byte buffer, `en-US` to `hi`, transcription yielding
`hello`, and a failing translation provider. -/
theorem c4_translation_stage_failure_witness :
    translateSpeech (some (List.replicate 100 0)) "en-US" "hi"
        (Except.ok "hello") (fun _ => Except.error "boom")
        (fun _ => Except.ok [1]) =
      ⟨"hello", "", none, some "boom"⟩ ∧
    ∀ (ad : Option (List Nat)) (s t : String) (st : Except String String)
      (f : String → Except String String) (g : String → Except String (List Nat)),
      (translateSpeech ad s t st f g).audio.isSome ↔
        (translateSpeech ad s t st f g).errorMsg = none :=
  c4_translation_stage_failure (List.replicate 100 0) "en-US" "hi" "hello" "boom"
    (fun _ => Except.error "boom") (fun _ => Except.ok [1])
    (by decide) (by decide) (by decide) rfl

/-- JavaScript truthiness of an optional string field: absent and the empty
string are falsy. -/
def jsTruthy (o : Option String) : Bool :=
  match o with
  | none => false
  | some s => decide (s ≠ "")

/-- Fields of a stored chat document as seen by the migration script
(`src/utils/migrateChatData.js`); `none` models an absent field. -/
structure LegacyChat where
  content : Option String
  originalContent : Option String
  originalLanguage : Option String
  translations : Option (List (String × String))
deriving DecidableEq

/-- First statement of the migration loop body: backfill `originalContent`
from `content` when the former is falsy and the latter truthy. -/
def migrateStep1 (m : LegacyChat) : LegacyChat :=
  if jsTruthy m.originalContent = false ∧ jsTruthy m.content = true then
    { m with originalContent := m.content }
  else m

/-- Second statement: default a falsy `originalLanguage` to `en`. -/
def migrateStep2 (m : LegacyChat) : LegacyChat :=
  if jsTruthy m.originalLanguage = false then
    { m with originalLanguage := some "en" }
  else m

/-- Third statement: initialize an absent `translations` to an empty map. -/
def migrateStep3 (m : LegacyChat) : LegacyChat :=
  if m.translations = none then { m with translations := some [] } else m

/-- Per-record effect of `migrateChatData`
(`src/utils/migrateChatData.js`): the Mongo query selects the record only
when `originalContent` or `originalLanguage` is absent; a selected record
goes through the three backfill statements in order; an unselected record
is not touched at all. -/
def migrateRecord (m : LegacyChat) : LegacyChat :=
  if m.originalContent = none ∨ m.originalLanguage = none then
    migrateStep3 (migrateStep2 (migrateStep1 m))
  else m

/-- None of the three steps changes `content`. -/
theorem migrate_content (m : LegacyChat) :
    (migrateStep1 m).content = m.content ∧ (migrateStep2 m).content = m.content ∧
      (migrateStep3 m).content = m.content := by
  unfold migrateStep1 migrateStep2 migrateStep3
  refine ⟨?_, ?_, ?_⟩ <;> (split_ifs <;> rfl)

/-- Steps 2 and 3 do not change `originalContent`, and step 3 does not
change `originalLanguage`. -/
theorem migrate_frames (m : LegacyChat) :
    (migrateStep2 m).originalContent = m.originalContent ∧
      (migrateStep3 m).originalContent = m.originalContent ∧
      (migrateStep3 m).originalLanguage = m.originalLanguage := by
  unfold migrateStep2 migrateStep3
  refine ⟨?_, ?_, ?_⟩ <;> (split_ifs <;> rfl)

/-- After step 2, `originalLanguage` is truthy. -/
theorem migrateStep2_ol_truthy (m : LegacyChat) :
    jsTruthy (migrateStep2 m).originalLanguage = true := by
  unfold migrateStep2
  split_ifs with h
  · simp [jsTruthy]
  · simpa using h

/-- After step 3, `translations` is present. -/
theorem migrateStep3_translations (m : LegacyChat) :
    (migrateStep3 m).translations ≠ none := by
  unfold migrateStep3
  split_ifs with h <;> simp [h]

/-- Step 1 never fires again on its own output. -/
theorem migrateStep1_no_refire (m : LegacyChat) :
    ¬ (jsTruthy (migrateStep1 m).originalContent = false ∧
        jsTruthy (migrateStep1 m).content = true) := by
  unfold migrateStep1
  split_ifs with h
  · intro hc
    rw [show ({ m with originalContent := m.content } : LegacyChat).originalContent =
        m.content from rfl] at hc
    rw [hc.1] at hc
    exact Bool.false_ne_true hc.2
  · exact h

/-- C10: a record that already has `originalContent` and `originalLanguage`
present is not selected by the migration and is left unchanged; and the
migration is idempotent on every record — a second run changes nothing. -/
theorem c10_migration_idempotent :
    (∀ m : LegacyChat, m.originalContent ≠ none → m.originalLanguage ≠ none →
      migrateRecord m = m) ∧
    (∀ m : LegacyChat, migrateRecord (migrateRecord m) = migrateRecord m) := by
  have hnotsel : ∀ m : LegacyChat,
      ¬ (m.originalContent = none ∨ m.originalLanguage = none) →
      migrateRecord m = m := by
    intro m h
    unfold migrateRecord
    rw [if_neg h]
  refine ⟨fun m h1 h2 => hnotsel m (by simp [h1, h2]), ?_⟩
  intro m
  by_cases hsel : m.originalContent = none ∨ m.originalLanguage = none
  · have hmr : migrateRecord m = migrateStep3 (migrateStep2 (migrateStep1 m)) := by
      unfold migrateRecord
      rw [if_pos hsel]
    rw [hmr]
    set r := migrateStep3 (migrateStep2 (migrateStep1 m)) with hr
    have hroc : r.originalContent = (migrateStep1 m).originalContent := by
      rw [hr, (migrate_frames _).2.1, (migrate_frames _).1]
    have hrc : r.content = (migrateStep1 m).content := by
      rw [hr, (migrate_content _).2.2, (migrate_content _).2.1]
    have hrol : jsTruthy r.originalLanguage = true := by
      rw [hr, (migrate_frames _).2.2]
      exact migrateStep2_ol_truthy _
    have hrtr : r.translations ≠ none := by
      rw [hr]
      exact migrateStep3_translations _
    have hs1 : migrateStep1 r = r := by
      unfold migrateStep1
      rw [if_neg (by rw [hroc, hrc]; exact migrateStep1_no_refire m)]
    have hs2 : migrateStep2 r = r := by
      unfold migrateStep2
      rw [if_neg (by simp [hrol])]
    have hs3 : migrateStep3 r = r := by
      unfold migrateStep3
      rw [if_neg hrtr]
    by_cases hsel2 : r.originalContent = none ∨ r.originalLanguage = none
    · unfold migrateRecord
      rw [if_pos hsel2, hs1, hs2, hs3]
    · exact hnotsel r hsel2
  · rw [hnotsel m hsel, hnotsel m hsel]

/-- C10 witness: an already-migrated record is untouched. -/
theorem c10_migration_idempotent_witness :
    migrateRecord ⟨some "hi", some "hi", some "en", some []⟩ =
      ⟨some "hi", some "hi", some "en", some []⟩ :=
  c10_migration_idempotent.1 ⟨some "hi", some "hi", some "en", some []⟩
    (by decide) (by decide)

/-- Embedding of `batchTranslateSpeech` (`src/utils/speechTranslator.js`).
`items` carries each input label with its normalized audio buffer (`none`
models unnormalizable data); `sttF` gives the `performSpeechToText` outcome
per buffer, `trBatchF` the `translateBatch` outcome for the list of valid
transcriptions, and `ttsF` the `performTextToSpeech` outcome per translated
text.  Faithful to the source, the id of a transcription is recovered
through `transcriptionMap`, a JavaScript `Map` keyed by the transcribed
TEXT (later items overwrite earlier ones on equal text), and the
per-id `translationMap` is keyed by that recovered id; the bounded TTS
concurrency window only schedules work and does not affect the final
result map, so it is not represented. -/
def batchTranslateSpeech (items : List (String × Option (List Nat)))
    (srcLang tgtLang : String) (sttF : List Nat → Except String String)
    (trBatchF : List String → Except String (List String))
    (ttsF : String → Except String (List Nat)) : List (String × SpeechResult) :=
  let isSame := jsOr (normalizeLanguage srcLang) "en" = jsOr (normalizeLanguage tgtLang) "en"
  let validItems : List (String × List Nat) :=
    items.filterMap (fun p =>
      match p.2 with
      | some buf => if buf.length ≥ 100 then some (p.1, buf) else none
      | none => none)
  let validIds := validItems.map Prod.fst
  let invalidResults : List (String × SpeechResult) :=
    (items.filter (fun p => decide (p.1 ∉ validIds))).map
      (fun p => (p.1, ⟨"", "", none, some "Invalid audio data"⟩))
  if validItems = [] then invalidResults
  else
    let transcriptionResults : List (String × Except String String) :=
      validItems.map (fun p => (p.1, sttF p.2))
    let validTranscriptions : List String :=
      transcriptionResults.filterMap (fun p =>
        match p.2 with
        | Except.ok t => if t ≠ "" then some t else none
        | Except.error _ => none)
    let transcriptionMap : List (String × String) :=
      transcriptionResults.foldl (fun mp p =>
        match p.2 with
        | Except.ok t => if t ≠ "" then jsMapSet mp t p.1 else mp
        | Except.error _ => mp) []
    let failedTranscriptionResults : List (String × SpeechResult) :=
      transcriptionResults.filterMap (fun p =>
        match p.2 with
        | Except.ok t =>
          if t ≠ "" then none
          else some (p.1, ⟨t, "", none, some "Transcription failed"⟩)
        | Except.error e => some (p.1, ⟨"", "", none, some e⟩))
    if validTranscriptions = [] then invalidResults ++ failedTranscriptionResults
    else
      match (if isSame then Except.ok validTranscriptions
             else trBatchF validTranscriptions) with
      | Except.error e =>
        invalidResults ++ failedTranscriptionResults ++
          validTranscriptions.map (fun orig =>
            ((jsMapGet transcriptionMap orig).getD "",
              ⟨orig, "", none, some ("Translation failed: " ++ e)⟩))
      | Except.ok translations =>
        let translationMap : List (String × (String × String)) :=
          validTranscriptions.enum.foldl (fun mp q =>
            jsMapSet mp ((jsMapGet transcriptionMap q.2).getD "")
              (q.2, translations.getD q.1 "")) []
        let ttsResults : List (String × (Option (List Nat) × Option String)) :=
          (translationMap.map Prod.fst).map (fun id =>
            match jsMapGet translationMap id with
            | some texts =>
              match ttsF texts.2 with
              | Except.ok audio => (id, (some audio, none))
              | Except.error e => (id, (none, some e))
            | none => (id, (none, some "Missing translation data")))
        let successResults : List (String × SpeechResult) :=
          translationMap.map (fun q =>
            let tres := (jsMapGet ttsResults q.1).getD (none, some "TTS processing failed")
            (q.1, ⟨q.2.1, q.2.2, tres.1, tres.2⟩))
        invalidResults ++ failedTranscriptionResults ++ successResults

/-- C8 (code bug): two valid items labeled `a` and `b` whose audio both
transcribe to the identical text `hello` produce a single output entry,
labeled `b` — the text-keyed `transcriptionMap` lets the second item
overwrite the first, so label `a` is dropped from the batch output instead
of every input label receiving its own result. -/
theorem c8_duplicate_transcript_drops_item :
    batchTranslateSpeech
      [("a", some (List.replicate 100 0)), ("b", some (List.replicate 100 1))]
      "en" "en" (fun _ => Except.ok "hello") (fun ts => Except.ok ts)
      (fun _ => Except.ok [7]) =
      [("b", ⟨"hello", "hello", some [7], none⟩)] := rfl

end VaniBackend
